import Mathlib

set_option maxRecDepth 100000

/-!
Verification of the OpenSSH private-key decoder
(`thrussh-keys/src/format/openssh.rs`).

The Rust source is shallowly embedded: byte buffers are `List Nat`
(each element a byte value), fallible operations return an `Outcome`,
and a Rust panic (slice index out of bounds, failed assertion,
`.unwrap()` on an `Err`) is the distinguished `Outcome.panic` value.
External cryptographic primitives (bcrypt KDF, AES, openssl RSA checks,
p256 scalar operations) are black-box capabilities, passed in as a
`Crypto` record, mirroring the stated non-goal of the design: primitives
are consumed, not implemented.  Build-time feature flags (`openssl`,
`p256`) are a `Config` record.
-/

/-- Error kinds of the `thrussh-keys` crate that this module constructs or
propagates.  `couldNotReadKey`, `keyIsEncrypted` and `unsupportedKeyType`
are built by the code under `src/`; `indexOutOfBounds` is the truncation
error of the byte cursor (Modelled from the spec: the `encoding::Reader`
module is not under `src/`, §4.1 "fails with a malformed-input error");
`primitive` stands for an external library error propagated with `?`. -/
inductive Error where
  | couldNotReadKey
  | keyIsEncrypted
  | unsupportedKeyType (tag : List Nat)
  | indexOutOfBounds
  | primitive
deriving DecidableEq

/-- Result of running a piece of Rust code: a value, a returned error, or a
panic (out-of-bounds slice index, failed assertion, `.unwrap()` on `Err`). -/
inductive Outcome (α : Type) where
  | ok (a : α)
  | err (e : Error)
  | panic
deriving DecidableEq

namespace Outcome

def bind {α β : Type} : Outcome α → (α → Outcome β) → Outcome β
  | ok a, f => f a
  | err e, _ => err e
  | panic, _ => panic

instance : Monad Outcome where
  pure := Outcome.ok
  bind := Outcome.bind

@[simp] theorem ok_bind {α β : Type} (a : α) (f : α → Outcome β) :
    (Outcome.ok a >>= f) = f a := rfl

@[simp] theorem err_bind {α β : Type} (e : Error) (f : α → Outcome β) :
    (Outcome.err e >>= f) = Outcome.err e := rfl

@[simp] theorem panic_bind {α β : Type} (f : α → Outcome β) :
    ((Outcome.panic : Outcome α) >>= f) = Outcome.panic := rfl

theorem bind_eq_ok {α β : Type} {x : Outcome α} {f : α → Outcome β} {b : β} :
    (x >>= f) = Outcome.ok b ↔ ∃ a, x = Outcome.ok a ∧ f a = Outcome.ok b := by
  cases x <;> simp

end Outcome

/-- Signature-hash algorithm attached to RSA keys (`key::SignatureHash`;
Modelled from the spec: the `key` module is not under `src/`, §4.3 "a fixed
default signature-hash choice (SHA-2/512)"). -/
inductive SignatureHash where
  | SHA2_512
  | SHA2_256
deriving DecidableEq

/-- Output key material (`key::KeyPair`).  `Ed25519` holds the 64-byte
secret representation; `RSA` holds the big numbers in the order they are
handed to the openssl builder (`n`, `e`, `d`, factors `p`, `q`, CRT params
`dmp1`, `dmq1`, `iqmp`) plus the signature hash; `P256` holds the 32
normalized secret-scalar bytes. -/
inductive KeyPair where
  | Ed25519 (key : List Nat)
  | RSA (n e d p q dmp1 dmq1 iqmp : Int) (hash : SignatureHash)
  | P256 (key : List Nat)
deriving DecidableEq

/-- Crate-level key-type tag `KEYTYPE_ED25519` = b"ssh-ed25519"
(Modelled from the spec: the constant lives outside `src/`; §6 and §8 name
the tag "ssh-ed25519"). -/
def KEYTYPE_ED25519 : List Nat := [115, 115, 104, 45, 101, 100, 50, 53, 53, 49, 57]

/-- Crate-level key-type tag `KEYTYPE_RSA` = b"ssh-rsa" (Modelled from the
spec: the constant lives outside `src/`; §6 lists the rsa record). -/
def KEYTYPE_RSA : List Nat := [115, 115, 104, 45, 114, 115, 97]

/-- Crate-level key-type tag `KEYTYPE_P256` = b"ecdsa-sha2-nistp256"
(Modelled from the spec: the constant lives outside `src/`; §6 lists the
ecdsa p-256 record). -/
def KEYTYPE_P256 : List Nat :=
  [101, 99, 100, 115, 97, 45, 115, 104, 97, 50, 45, 110, 105, 115, 116, 112, 50, 53, 54]

/-- The 15 magic bytes b"openssh-key-v1\0". -/
def magicBytes : List Nat :=
  [111, 112, 101, 110, 115, 115, 104, 45, 107, 101, 121, 45, 118, 49, 0]

/-- Byte string b"none". -/
def bNone : List Nat := [110, 111, 110, 101]

/-- Byte string b"bcrypt". -/
def bBcrypt : List Nat := [98, 99, 114, 121, 112, 116]

/-- Byte string b"aes128-cbc". -/
def bAes128Cbc : List Nat := [97, 101, 115, 49, 50, 56, 45, 99, 98, 99]

/-- Byte string b"aes256-cbc". -/
def bAes256Cbc : List Nat := [97, 101, 115, 50, 53, 54, 45, 99, 98, 99]

/-- Byte string b"aes128-ctr". -/
def bAes128Ctr : List Nat := [97, 101, 115, 49, 50, 56, 45, 99, 116, 114]

/-- Byte string b"aes256-ctr". -/
def bAes256Ctr : List Nat := [97, 101, 115, 50, 53, 54, 45, 99, 116, 114]

/-- A reader is the list of bytes not yet consumed (the source expression
`secret.reader(pos)` is the suffix of the buffer from `pos`). -/
abbrev Reader := List Nat

/-- Big-endian value of four bytes. -/
def beU32 (b0 b1 b2 b3 : Nat) : Nat :=
  ((b0 * 256 + b1) * 256 + b2) * 256 + b3

/-- Byte cursor `read_u32` (Modelled from the spec: `encoding::Reader` is
not under `src/`; §4.1 "consumes 4 bytes, big-endian; fails with a
malformed-input error if fewer than 4 bytes remain"). -/
def read_u32 (r : Reader) : Outcome (Nat × Reader) :=
  match r with
  | b0 :: b1 :: b2 :: b3 :: rest => .ok (beU32 b0 b1 b2 b3, rest)
  | _ => .err .indexOutOfBounds

/-- Byte cursor `read_string` (Modelled from the spec: `encoding::Reader`
is not under `src/`; §4.1 "reads a u32 length, then that many bytes; fails
if declared length exceeds remaining buffer"). -/
def read_string (r : Reader) : Outcome (List Nat × Reader) := do
  let (len, r) ← read_u32 r
  if len ≤ r.length then .ok (r.take len, r.drop len)
  else .err .indexOutOfBounds

/-- Byte cursor `read_mpint` (Modelled from the spec: `encoding::Reader` is
not under `src/`; §4.1 "reads a length-prefixed big-endian integer, leading
0x00 byte dropped if present for positive-sign normalization").  The
decoder only uses the magnitude bytes. -/
def read_mpint (r : Reader) : Outcome (List Nat × Reader) := do
  let (s, r) ← read_string r
  match s with
  | 0 :: rest => .ok (rest, r)
  | _ => .ok (s, r)

/-- Build-time feature flags (`cfg!(feature = "openssl")`,
`cfg!(feature = "p256")`). -/
structure Config where
  openssl : Bool
  p256 : Bool

/-- Black-box cryptographic capabilities consumed by the decoder (spec §1
makes primitives external, well-specified capabilities).
`bcryptPbkdf password salt rounds len` either fails or yields the `len`
derived bytes; the CBC decryptors either fail or yield the plaintext the
primitive reports valid; the CTR fields apply the keystream; `rsaCheckKey`
is `RSA_check_key` of openssl observed through rust-openssl (`Ok` with a
validity flag, or `Err` for an internal error); `p256FromBytes` is scalar
validation, `p256PubBytes` the SEC1 encoding of the derived public key. -/
structure Crypto where
  bcryptPbkdf : String → List Nat → Nat → Nat → Except Unit (List Nat)
  aes128CbcDecrypt : List Nat → List Nat → List Nat → Except Unit (List Nat)
  aes256CbcDecrypt : List Nat → List Nat → List Nat → Except Unit (List Nat)
  aes128Ctr : List Nat → List Nat → List Nat → List Nat
  aes256Ctr : List Nat → List Nat → List Nat → List Nat
  rsaCheckKey : Int → Int → Int → Int → Int → Int → Int → Int → Except Unit Bool
  p256FromBytes : List Nat → Except Unit Unit
  p256PubBytes : List Nat → List Nat

/-- Embedding of `decrypt_secret_key` (lines 108-172).  Structure follows
the source exactly: the `kdfname == b"none"` test comes first, then the
password presence test; inside the password branch the cipher-name match
computes the derived-material length `n`, the KDF match runs bcrypt with
`.unwrap()` (panic on primitive error), `key.split_at(n - 16)` splits the
full 48-byte buffer, and cipher construction with `.unwrap()` panics when
the key or IV slice length does not fit the cipher (the `InvalidLength`
error of `new_from_slices`). -/
def decrypt_secret_key (crypto : Crypto) (ciphername kdfname kdfoptions : List Nat)
    (password : Option String) (secret_key : List Nat) : Outcome (List Nat) :=
  if kdfname = bNone then
    match password with
    | none => .ok secret_key
    | some _ => .err .couldNotReadKey
  else
    match password with
    | some password =>
      match (if ciphername = bAes128Cbc ∨ ciphername = bAes128Ctr then some 32
             else if ciphername = bAes256Cbc ∨ ciphername = bAes256Ctr then some 48
             else none) with
      | none => .err .couldNotReadKey
      | some n => do
        let key48 ←
          (if kdfname = bBcrypt then do
            let (salt, r) ← read_string kdfoptions
            let (rounds, _r) ← read_u32 r
            match crypto.bcryptPbkdf password salt rounds n with
            | .ok out =>
                -- bcrypt fills key[..n] of the zeroed [0u8; 48] array
                let w := out.take n
                Outcome.ok (w ++ List.replicate (48 - w.length) 0)
            | .error _ => .panic  -- .unwrap()
          else .err .couldNotReadKey)
        let key := key48.take (n - 16)
        let iv := key48.drop (n - 16)
        let dec := secret_key ++ List.replicate 32 0
        if ciphername = bAes128Cbc then
          if key.length = 16 ∧ iv.length = 16 then
            match crypto.aes128CbcDecrypt key iv dec with
            | .ok pt => .ok pt
            | .error _ => .err .primitive
          else .panic  -- new_from_slices(..).unwrap()
        else if ciphername = bAes256Cbc then
          if key.length = 32 ∧ iv.length = 16 then
            match crypto.aes256CbcDecrypt key iv dec with
            | .ok pt => .ok pt
            | .error _ => .err .primitive
          else .panic
        else if ciphername = bAes128Ctr then
          if key.length = 16 ∧ iv.length = 16 then
            .ok ((crypto.aes128Ctr key iv dec).take secret_key.length)
          else .panic
        else if ciphername = bAes256Ctr then
          if key.length = 32 ∧ iv.length = 16 then
            .ok ((crypto.aes256Ctr key iv dec).take secret_key.length)
          else .panic
        else .ok dec  -- the `_ => \x7b\x7d` match arm falls through to Ok(dec)
    | none => .err .keyIsEncrypted

/-- Unsigned big-endian value of a byte string, as `BigNum::from_slice`
interprets it. -/
def intOfBytes (bs : List Nat) : Int :=
  Int.ofNat (bs.foldl (fun a b => a * 256 + b) 0)

/-- Openssl `checked_rem` (`BN_div` remainder): fails on a zero divisor,
otherwise the remainder of truncated division (sign of the dividend). -/
def checked_rem (a m : Int) : Outcome Int :=
  if m = 0 then .err .primitive else .ok (a.tmod m)

/-- The P-256 scalar normalization loop (lines 80-86) iterating over the
reversed secret bytes with an enumeration counter `i` and writing into
index `31 - i` while `i < 32`.  `writeRev i l acc` is the loop over the
remaining reversed bytes `l` with counter `i` and accumulator `acc`. -/
def writeRev : Nat → List Nat → List Nat → List Nat
  | _, [], acc => acc
  | i, b :: t, acc => writeRev (i + 1) t (if i < 32 then acc.set (31 - i) b else acc)

/-- Entry point of the normalization loop: reversed iteration starting at
counter 0 over the zeroed 32-byte array. -/
def normalize32 (sec_bytes : List Nat) : List Nat :=
  writeRev 0 sec_bytes.reverse (List.replicate 32 0)

/-- One iteration of the `for _ in 0..nkeys` loop of `decode_openssh`
(lines 31-96).  Every arm of the if-chain returns, so the loop body runs at
most once; `nkeys = 0` falls through to `Err(CouldNotReadKey)` (line 97). -/
def parse_keys (cfg : Config) (crypto : Crypto) (nkeys : Nat) (r : Reader) :
    Outcome KeyPair :=
  match nkeys with
  | 0 => .err .couldNotReadKey
  | _ + 1 => do
    let (key_type, r) ← read_string r
    if key_type = KEYTYPE_ED25519 then do
      let (pubkey, r) ← read_string r
      let (seckey, r) ← read_string r
      let (_comment, _r) ← read_string r
      -- the slice seckey[32..] panics when seckey is shorter than 32
      -- bytes, and the assertion comparing it with pubkey panics on
      -- mismatch
      if seckey.length < 32 then .panic
      else if pubkey ≠ seckey.drop 32 then .panic
      -- secret.key.clone_from_slice(seckey) panics unless seckey is 64 bytes
      else if seckey.length ≠ 64 then .panic
      else .ok (.Ed25519 seckey)
    else if key_type = KEYTYPE_RSA ∧ cfg.openssl = true then do
      let (nb, r) ← read_string r
      let (eb, r) ← read_string r
      let (db, r) ← read_string r
      let (iqmpb, r) ← read_string r
      let (pb, r) ← read_string r
      let (qb, _r) ← read_string r
      let n := intOfBytes nb
      let e := intOfBytes eb
      let d := intOfBytes db
      let iqmp := intOfBytes iqmpb
      let p := intOfBytes pb
      let q := intOfBytes qb
      let p1 := p - 1
      let q1 := q - 1
      let dmp1 ← checked_rem d p1
      let dmq1 ← checked_rem d q1
      -- key.check_key().unwrap(): panics on Err, DISCARDS the Ok(bool)
      match crypto.rsaCheckKey n e d p q dmp1 dmq1 iqmp with
      | .error _ => .panic
      | .ok _ => .ok (.RSA n e d p q dmp1 dmq1 iqmp .SHA2_512)
    else if key_type = KEYTYPE_P256 ∧ cfg.p256 = true then do
      let (_nistp256, r) ← read_string r
      let (pub_bytes, r) ← read_string r
      let (sec_bytes, r) ← read_mpint r
      let (_comment, _r) ← read_string r
      let key_bytes := normalize32 sec_bytes
      match crypto.p256FromBytes key_bytes with
      | .error _ => .err .primitive  -- from_bytes(..)?
      | .ok _ =>
        if crypto.p256PubBytes key_bytes ≠ pub_bytes then .err .couldNotReadKey
        else .ok (.P256 key_bytes)
    else .err (.unsupportedKeyType key_type)

/-- Parsing of the decrypted private section (lines 28-96): a fresh cursor,
two check words read into unused bindings, then the key loop. -/
def parse_private_section (cfg : Config) (crypto : Crypto) (nkeys : Nat)
    (dec : List Nat) : Outcome KeyPair := do
  let (_check0, r) ← read_u32 dec
  let (_check1, r) ← read_u32 r
  parse_keys cfg crypto nkeys r

/-- The loop skipping the public-key blobs (lines 21-23). -/
def skip_strings : Nat → Reader → Outcome Reader
  | 0, r => .ok r
  | n + 1, r => do
    let (_s, r) ← read_string r
    skip_strings n r

/-- Embedding of `decode_openssh` (lines 10-101).  `&secret[0..15]` panics
when the buffer is shorter than 15 bytes; otherwise the magic comparison
selects between the envelope parse and `Err(CouldNotReadKey)`. -/
def decode_openssh (cfg : Config) (crypto : Crypto) (secret : List Nat)
    (password : Option String) : Outcome KeyPair :=
  if secret.length < 15 then .panic
  else if secret.take 15 = magicBytes then do
    let r := secret.drop 15
    let (ciphername, r) ← read_string r
    let (kdfname, r) ← read_string r
    let (kdfoptions, r) ← read_string r
    let (nkeys, r) ← read_u32 r
    let r ← skip_strings nkeys r
    let (secret_, _r) ← read_string r
    let dec ← decrypt_secret_key crypto ciphername kdfname kdfoptions password secret_
    parse_private_section cfg crypto nkeys dec
  else .err .couldNotReadKey

/-- Big-endian 4-byte encoding of a value below 2^32. -/
def u32be (n : Nat) : List Nat :=
  [n / 2 ^ 24 % 256, n / 2 ^ 16 % 256, n / 2 ^ 8 % 256, n % 256]

/-- Length-prefixed string encoding of the wire format. -/
def str (s : List Nat) : List Nat := u32be s.length ++ s

/-- A well-formed outer envelope: magic, ciphername, kdfname, kdfoptions,
key count, public-key blobs, private section. -/
def mkContainer (ciphername kdfname kdfoptions : List Nat)
    (pubkeys : List (List Nat)) (priv : List Nat) : List Nat :=
  magicBytes ++ str ciphername ++ str kdfname ++ str kdfoptions ++
    u32be pubkeys.length ++ (pubkeys.map str).flatten ++ str priv

/-- A configuration with every optional backend compiled in. -/
def cfgAll : Config := ⟨true, true⟩

/-- A configuration with no optional backend compiled in. -/
def cfgNone : Config := ⟨false, false⟩

/-- A benign backend: every primitive succeeds. -/
def cryptoOk : Crypto where
  bcryptPbkdf := fun _ _ _ n => .ok (List.replicate n 0)
  aes128CbcDecrypt := fun _ _ d => .ok d
  aes256CbcDecrypt := fun _ _ d => .ok d
  aes128Ctr := fun _ _ d => d
  aes256Ctr := fun _ _ d => d
  rsaCheckKey := fun _ _ _ _ _ _ _ _ => .ok true
  p256FromBytes := fun _ => .ok ()
  p256PubBytes := fun kb => kb

/-- A backend whose bcrypt key derivation reports an error (as the real
primitive does, e.g., on a zero round count). -/
def cryptoFailBcrypt : Crypto :=
  { cryptoOk with bcryptPbkdf := fun _ _ _ _ => .error () }

/-- Spec-side statement of the P-256 scalar normalization, written from the
words of C8: a fixed 32-byte big-endian buffer, right-aligned — shorter
inputs are left-padded with zero bytes, and of longer inputs only the 32
trailing (least-significant) bytes are kept. -/
def specNormalize32 (sec : List Nat) : List Nat :=
  List.replicate (32 - sec.length) 0 ++ sec.drop (sec.length - 32)

/-- A 32-byte public-key value used in concrete containers. -/
def pubX : List Nat := List.replicate 32 1

/-- An Ed25519 private section whose declared public bytes (all 1) differ
from the last 32 bytes of the declared 64-byte secret (all 0). -/
def mismatchPriv : List Nat :=
  u32be 0 ++ u32be 0 ++ str KEYTYPE_ED25519 ++ str pubX ++
    str (List.replicate 64 0) ++ str []

/-- Container holding `mismatchPriv`, unencrypted. -/
def mismatchBuf : List Nat := mkContainer bNone bNone [] [[]] mismatchPriv

/-- A consistent 64-byte Ed25519 secret: 32-byte zero seed, then `pubX`. -/
def goodSec : List Nat := List.replicate 32 0 ++ pubX

/-- An Ed25519 private section whose two check words are 1 and 2 (hence
unequal) but whose key record is well-formed and consistent. -/
def badCheckPriv : List Nat :=
  u32be 1 ++ u32be 2 ++ str KEYTYPE_ED25519 ++ str pubX ++ str goodSec ++ str []

/-- Container holding `badCheckPriv`, unencrypted. -/
def badCheckBuf : List Nat := mkContainer bNone bNone [] [[]] badCheckPriv

/-- An RSA private section with n = 15, e = 3, d = 3, iqmp = 2, p = 3,
q = 5 (the mpints are read in the source order n, e, d, iqmp, p, q). -/
def rsaPriv : List Nat :=
  u32be 0 ++ u32be 0 ++ str KEYTYPE_RSA ++ str [15] ++ str [3] ++ str [3] ++
    str [2] ++ str [3] ++ str [5]

/-- Container holding `rsaPriv`, unencrypted. -/
def rsaBuf : List Nat := mkContainer bNone bNone [] [[]] rsaPriv

theorem read_u32_u32be (n : Nat) (rest : Reader) (h : n < 2 ^ 32) :
    read_u32 (u32be n ++ rest) = .ok (n, rest) := by
  have h1 : read_u32 (u32be n ++ rest)
      = .ok (beU32 (n / 2 ^ 24 % 256) (n / 2 ^ 16 % 256) (n / 2 ^ 8 % 256) (n % 256),
        rest) := rfl
  have h2 : beU32 (n / 2 ^ 24 % 256) (n / 2 ^ 16 % 256) (n / 2 ^ 8 % 256) (n % 256)
      = n := by
    unfold beU32
    omega
  rw [h1, h2]

theorem read_string_str (s : List Nat) (rest : Reader) (h : s.length < 2 ^ 32) :
    read_string (str s ++ rest) = .ok (s, rest) := by
  unfold read_string str
  rw [List.append_assoc, read_u32_u32be _ _ h]
  simp only [Outcome.ok_bind]
  rw [if_pos (by simp)]
  rw [List.take_left, List.drop_left]

theorem skip_strings_flatten (pubkeys : List (List Nat)) (rest : Reader)
    (hpub : ∀ s ∈ pubkeys, s.length < 2 ^ 32) :
    skip_strings pubkeys.length ((pubkeys.map str).flatten ++ rest) = .ok rest := by
  induction pubkeys with
  | nil => simp [skip_strings]
  | cons s t ih =>
    simp only [List.map_cons, List.flatten_cons, List.length_cons, List.append_assoc]
    unfold skip_strings
    rw [read_string_str s _ (hpub s (by simp))]
    simp only [Outcome.ok_bind]
    exact ih (fun x hx => hpub x (by simp [hx]))

theorem parse_private_section_checks (cfg : Config) (crypto : Crypto) (nk a b : Nat)
    (rest : Reader) :
    parse_private_section cfg crypto nk (u32be a ++ (u32be b ++ rest))
      = parse_keys cfg crypto nk rest := rfl

theorem decode_mkContainer_none (cfg : Config) (crypto : Crypto)
    (cn opts : List Nat) (pubkeys : List (List Nat)) (priv : List Nat)
    (hcn : cn.length < 2 ^ 32) (hopts : opts.length < 2 ^ 32)
    (hpub : ∀ s ∈ pubkeys, s.length < 2 ^ 32) (hk : pubkeys.length < 2 ^ 32)
    (hpriv : priv.length < 2 ^ 32) :
    decode_openssh cfg crypto (mkContainer cn bNone opts pubkeys priv) none
      = parse_private_section cfg crypto pubkeys.length priv := by
  unfold decode_openssh mkContainer
  simp only [List.append_assoc]
  rw [if_neg (by simp [magicBytes])]
  rw [show (15 : Nat) = magicBytes.length from rfl, List.take_left, List.drop_left,
    if_pos rfl]
  rw [read_string_str cn _ hcn]
  simp only [Outcome.ok_bind]
  rw [read_string_str bNone _ (by decide)]
  simp only [Outcome.ok_bind]
  rw [read_string_str opts _ hopts]
  simp only [Outcome.ok_bind]
  rw [read_u32_u32be pubkeys.length _ hk]
  simp only [Outcome.ok_bind]
  rw [skip_strings_flatten pubkeys _ hpub]
  simp only [Outcome.ok_bind]
  rw [show str priv = str priv ++ [] from (List.append_nil _).symm]
  rw [read_string_str priv _ hpriv]
  simp only [Outcome.ok_bind]
  rfl

theorem intOfBytes_nonneg (bs : List Nat) : 0 ≤ intOfBytes bs := by
  unfold intOfBytes
  exact Int.ofNat_nonneg _

theorem checked_rem_ok {a m c : Int} (h : checked_rem a m = .ok c) :
    m ≠ 0 ∧ c = a.tmod m := by
  unfold checked_rem at h
  by_cases hm : m = 0
  · rw [if_pos hm] at h
    exact Outcome.noConfusion h
  · rw [if_neg hm] at h
    injection h with h
    exact ⟨hm, h.symm⟩

theorem tmod_pred_eq_emod {d p : Int} (hd : 0 ≤ d) (hp : 0 ≤ p) (h : p - 1 ≠ 0) :
    d.tmod (p - 1) = d % (p - 1) := by
  by_cases hp0 : p = 0
  · subst hp0
    rw [show (0 : Int) - 1 = -1 by norm_num]
    rw [show (-1 : Int) = -(1 : Int) by norm_num]
    rw [Int.tmod_neg, Int.emod_neg, Int.tmod_one, Int.emod_one]
  · exact Int.tmod_eq_emod hd (by omega)

theorem parse_keys_ok_rsa {cfg : Config} {crypto : Crypto} {nk : Nat} {r : Reader}
    {n e d p q dmp1 dmq1 iqmp : Int} {hsh : SignatureHash}
    (h : parse_keys cfg crypto nk r = .ok (.RSA n e d p q dmp1 dmq1 iqmp hsh)) :
    0 ≤ d ∧ 0 ≤ p ∧ 0 ≤ q ∧ p - 1 ≠ 0 ∧ q - 1 ≠ 0
      ∧ dmp1 = d.tmod (p - 1) ∧ dmq1 = d.tmod (q - 1) := by
  cases nk with
  | zero => exact Outcome.noConfusion h
  | succ m =>
    simp only [parse_keys] at h
    rw [Outcome.bind_eq_ok] at h
    obtain ⟨⟨kt, r1⟩, -, h⟩ := h
    by_cases h1 : kt = KEYTYPE_ED25519
    · rw [if_pos h1] at h
      simp only [Outcome.bind_eq_ok] at h
      obtain ⟨⟨pk, r2⟩, -, ⟨sk, r3⟩, -, ⟨cm, r4⟩, -, h⟩ := h
      split at h
      · exact Outcome.noConfusion h
      · split at h
        · exact Outcome.noConfusion h
        · split at h
          · exact Outcome.noConfusion h
          · exact KeyPair.noConfusion (Outcome.ok.inj h)
    · rw [if_neg h1] at h
      by_cases h2 : kt = KEYTYPE_RSA ∧ cfg.openssl = true
      · rw [if_pos h2] at h
        simp only [Outcome.bind_eq_ok] at h
        obtain ⟨⟨nb, r2⟩, -, ⟨eb, r3⟩, -, ⟨db, r4⟩, -, ⟨iqmpb, r5⟩, -, ⟨pb, r6⟩, -,
          ⟨qb, r7⟩, -, dmp1v, hrem1, dmq1v, hrem2, h⟩ := h
        split at h
        · exact Outcome.noConfusion h
        · injection h with h
          injection h with hn he hdd hpp hqq hdmp hdmq hiqmp hhsh
          obtain ⟨hm1, hc1⟩ := checked_rem_ok hrem1
          obtain ⟨hm2, hc2⟩ := checked_rem_ok hrem2
          subst hdd hpp hqq hdmp hdmq
          exact ⟨intOfBytes_nonneg _, intOfBytes_nonneg _, intOfBytes_nonneg _,
            hm1, hm2, hc1, hc2⟩
      · rw [if_neg h2] at h
        by_cases h3 : kt = KEYTYPE_P256 ∧ cfg.p256 = true
        · rw [if_pos h3] at h
          simp only [Outcome.bind_eq_ok] at h
          obtain ⟨⟨x1, r2⟩, -, ⟨x2, r3⟩, -, ⟨x3, r4⟩, -, ⟨x4, r5⟩, -, h⟩ := h
          split at h
          · exact Outcome.noConfusion h
          · split at h
            · exact Outcome.noConfusion h
            · exact KeyPair.noConfusion (Outcome.ok.inj h)
        · rw [if_neg h3] at h
          exact Outcome.noConfusion h

theorem take_replicate_nat (m n a : Nat) :
    (List.replicate n a).take m = List.replicate (min m n) a := by
  induction n generalizing m with
  | zero => simp
  | succ k ih =>
    cases m with
    | zero => simp
    | succ m2 => simp [List.replicate_succ, ih, Nat.succ_min_succ]

theorem writeRev_ge (l : List Nat) : ∀ (i : Nat) (acc : List Nat), 32 ≤ i →
    writeRev i l acc = acc := by
  induction l with
  | nil =>
    intro i acc _
    rfl
  | cons b t ih =>
    intro i acc hi
    unfold writeRev
    rw [if_neg (by omega)]
    exact ih (i + 1) acc (by omega)

theorem writeRev_eq (l : List Nat) : ∀ (i : Nat) (acc : List Nat), i ≤ 32 →
    acc.length = 32 →
    writeRev i l acc
      = acc.take ((32 - i) - min (32 - i) l.length) ++ (l.take (32 - i)).reverse
          ++ acc.drop (32 - i) := by
  induction l with
  | nil =>
    intro i acc hi hlen
    simp [writeRev]
  | cons b t ih =>
    intro i acc hi hlen
    by_cases hi32 : i = 32
    · subst hi32
      rw [writeRev_ge (b :: t) 32 acc (le_refl 32)]
      simp
    · have hlt : i < 32 := by omega
      unfold writeRev
      rw [if_pos hlt]
      rw [ih (i + 1) (acc.set (31 - i) b) (by omega) (by simp [hlen])]
      have e1 : 32 - (i + 1) = 31 - i := by omega
      rw [e1]
      have e2 : (31 - i) - min (31 - i) t.length
          = (32 - i) - min (32 - i) (b :: t).length := by
        simp only [List.length_cons]
        omega
      rw [List.set_take, List.set_eq_of_length_le
        (by rw [List.length_take, hlen]; omega)]
      rw [List.drop_set, if_neg (by omega), Nat.sub_self]
      rw [List.drop_eq_getElem_cons (by rw [hlen]; omega)]
      rw [List.set_cons_zero]
      rw [e2]
      have e3 : (b :: t).take (32 - i) = b :: t.take (31 - i) := by
        rw [show 32 - i = (31 - i) + 1 by omega, List.take_succ_cons]
      rw [e3, List.reverse_cons]
      have e4 : 31 - i + 1 = 32 - i := by omega
      rw [e4]
      simp [List.append_assoc]

/-- C1: the claim says every buffer shorter than 15 bytes yields a
malformed-container error and never panics; the code instead panics, for
any such buffer and any password: `&secret[0..15]` indexes out of
bounds. -/
theorem C1_short_buffer_panics (cfg : Config) (crypto : Crypto)
    (buf : List Nat) (password : Option String) (h : buf.length < 15) :
    decode_openssh cfg crypto buf password = .panic := by
  unfold decode_openssh
  rw [if_pos h]

theorem C1_short_buffer_panics_witness :
    ([] : List Nat).length < 15 ∧ decode_openssh cfgAll cryptoOk [] none = .panic :=
  ⟨by decide, C1_short_buffer_panics cfgAll cryptoOk [] none (by decide)⟩

/-- C2: on a well-formed Ed25519 record whose declared public bytes differ
from the last 32 bytes of the 64-byte secret, `decode_openssh` panics (the
assertion at line 37) instead of returning a structural error. -/
theorem C2_ed25519_mismatch_panics :
    decode_openssh cfgAll cryptoOk mismatchBuf none = .panic := by rfl

/-- C3 counterexample: a container whose two check words are 1 and 2
(unequal) is decoded to a key, so the claim that `decode_openssh` fails
with a decryption/integrity error whenever the check words differ is
false. -/
theorem C3_counterexample_checks_unequal_yet_ok :
    decode_openssh cfgAll cryptoOk badCheckBuf none = .ok (.Ed25519 goodSec) := by rfl

/-- C3 amended: the two check words are read but never compared; the
outcome of parsing the decrypted private section is identical for any two
pairs of check values, so a mismatch does not stop key-record parsing. -/
theorem C3_checks_read_but_ignored (cfg : Config) (crypto : Crypto) (nk a b a2 b2 : Nat)
    (rest : Reader) :
    parse_private_section cfg crypto nk (u32be a ++ (u32be b ++ rest))
      = parse_private_section cfg crypto nk (u32be a2 ++ (u32be b2 ++ rest)) := rfl

/-- C4: primitive failures inside `decrypt_secret_key` panic instead of
being returned as errors.  First conjunct: with aes128-ctr the code derives
a 32-byte IV (`split_at(n - 16)` of the whole 48-byte buffer with n = 32),
so cipher construction fails and `.unwrap()` panics even though bcrypt
succeeded.  Second conjunct: a bcrypt key-derivation error is also
`.unwrap()`ed into a panic. -/
theorem C4_primitive_failures_panic :
    decrypt_secret_key cryptoOk bAes128Ctr bBcrypt (str [1] ++ u32be 16)
        (some "pw") [0] = .panic
  ∧ decrypt_secret_key cryptoFailBcrypt bAes256Ctr bBcrypt (str [1] ++ u32be 0)
        (some "pw") [0] = .panic :=
  ⟨rfl, rfl⟩

/-- C5: every RSA key successfully returned by `decode_openssh` satisfies
dmp1 = d mod (p - 1) and dmq1 = d mod (q - 1) exactly, where d, p, q are
the integers read from the private-key record. -/
theorem C5_rsa_crt_params (cfg : Config) (crypto : Crypto) (buf : List Nat)
    (password : Option String) {n e d p q dmp1 dmq1 iqmp : Int} {hsh : SignatureHash}
    (h : decode_openssh cfg crypto buf password
      = .ok (.RSA n e d p q dmp1 dmq1 iqmp hsh)) :
    dmp1 = d % (p - 1) ∧ dmq1 = d % (q - 1) := by
  unfold decode_openssh at h
  split at h
  · exact Outcome.noConfusion h
  · split at h
    · simp only [Outcome.bind_eq_ok] at h
      obtain ⟨⟨cn, r1⟩, -, ⟨kdf, r2⟩, -, ⟨opts, r3⟩, -, ⟨nk, r4⟩, -, r5, -, ⟨sk, r6⟩, -,
        dec, -, h⟩ := h
      unfold parse_private_section at h
      simp only [Outcome.bind_eq_ok] at h
      obtain ⟨⟨c0, r7⟩, -, ⟨c1, r8⟩, -, h⟩ := h
      obtain ⟨hd, hp, hq, hp1, hq1, hdmp, hdmq⟩ := parse_keys_ok_rsa h
      exact ⟨hdmp.trans (tmod_pred_eq_emod hd hp hp1),
        hdmq.trans (tmod_pred_eq_emod hd hq hq1)⟩
    · exact Outcome.noConfusion h

theorem C5_rsa_crt_params_witness :
    decode_openssh cfgAll cryptoOk rsaBuf none
        = .ok (.RSA 15 3 3 3 5 1 3 2 .SHA2_512)
    ∧ (1 : Int) = 3 % ((3 : Int) - 1) ∧ (3 : Int) = 3 % ((5 : Int) - 1) := by
  have hdec : decode_openssh cfgAll cryptoOk rsaBuf none
      = .ok (.RSA 15 3 3 3 5 1 3 2 .SHA2_512) := by rfl
  exact ⟨hdec, C5_rsa_crt_params cfgAll cryptoOk rsaBuf none hdec⟩

/-- C6: with kdfname "none" and no password the private section is returned
unchanged; with kdfname "none" and a password the call fails with the
structural error; with kdfname "bcrypt" (a real KDF) and no password it
fails with the dedicated password-required error, which is distinct from
the structural error. -/
theorem C6_kdf_none_and_password_required :
    (∀ (crypto : Crypto) (cn opts data : List Nat),
      decrypt_secret_key crypto cn bNone opts none data = .ok data)
  ∧ (∀ (crypto : Crypto) (cn opts data : List Nat) (pw : String),
      decrypt_secret_key crypto cn bNone opts (some pw) data = .err .couldNotReadKey)
  ∧ (∀ (crypto : Crypto) (cn opts data : List Nat),
      decrypt_secret_key crypto cn bBcrypt opts none data = .err .keyIsEncrypted)
  ∧ Error.keyIsEncrypted ≠ Error.couldNotReadKey :=
  ⟨fun _ _ _ _ => rfl, fun _ _ _ _ _ => rfl, fun _ _ _ _ => rfl, by decide⟩

theorem C6_kdf_none_and_password_required_witness :
    decrypt_secret_key cryptoOk bAes128Ctr bNone [] none [5, 6] = .ok [5, 6]
  ∧ decrypt_secret_key cryptoOk bAes128Ctr bNone [] (some "x") [5, 6]
      = .err .couldNotReadKey
  ∧ decrypt_secret_key cryptoOk bAes128Ctr bBcrypt [] none [5, 6]
      = .err .keyIsEncrypted :=
  ⟨C6_kdf_none_and_password_required.1 cryptoOk bAes128Ctr [] [5, 6],
    C6_kdf_none_and_password_required.2.1 cryptoOk bAes128Ctr [] [5, 6] "x",
    C6_kdf_none_and_password_required.2.2.1 cryptoOk bAes128Ctr [] [5, 6]⟩

/-- C7: when the key-type tag matches no supported algorithm — or names a
known algorithm whose backend feature is not compiled in — `decode_openssh`
fails with the unsupported-key-type error whose payload is exactly the raw
tag bytes read from the buffer. -/
theorem C7_unsupported_or_uncompiled_tag (cfg : Config) (crypto : Crypto)
    (cn opts : List Nat) (pubkeys : List (List Nat)) (a b : Nat) (tag rest : List Nat)
    (hcn : cn.length < 2 ^ 32) (hopts : opts.length < 2 ^ 32)
    (hpub : ∀ s ∈ pubkeys, s.length < 2 ^ 32) (hk : pubkeys.length < 2 ^ 32)
    (hne : pubkeys ≠ [])
    (htag : tag.length < 2 ^ 32)
    (hpriv : (u32be a ++ u32be b ++ str tag ++ rest).length < 2 ^ 32)
    (hunsup : ¬(tag = KEYTYPE_ED25519 ∨ (tag = KEYTYPE_RSA ∧ cfg.openssl = true)
      ∨ (tag = KEYTYPE_P256 ∧ cfg.p256 = true))) :
    decode_openssh cfg crypto
        (mkContainer cn bNone opts pubkeys (u32be a ++ u32be b ++ str tag ++ rest)) none
      = .err (.unsupportedKeyType tag) := by
  rw [decode_mkContainer_none cfg crypto cn opts pubkeys _ hcn hopts hpub hk hpriv]
  simp only [List.append_assoc]
  rw [parse_private_section_checks]
  cases pubkeys with
  | nil => exact absurd rfl hne
  | cons p0 ps =>
    simp only [List.length_cons, parse_keys]
    rw [read_string_str tag rest htag]
    simp only [Outcome.ok_bind]
    rw [if_neg (fun hcontra => hunsup (Or.inl hcontra))]
    rw [if_neg (fun hcontra => hunsup (Or.inr (Or.inl hcontra)))]
    rw [if_neg (fun hcontra => hunsup (Or.inr (Or.inr hcontra)))]

theorem C7_unsupported_or_uncompiled_tag_witness :
    decode_openssh cfgNone cryptoOk
        (mkContainer bNone bNone [] [[]] (u32be 0 ++ u32be 0 ++ str KEYTYPE_RSA ++ []))
        none
      = .err (.unsupportedKeyType KEYTYPE_RSA) :=
  C7_unsupported_or_uncompiled_tag cfgNone cryptoOk bNone [] [[]] 0 0 KEYTYPE_RSA []
    (by decide) (by decide) (by decide) (by decide) (by decide) (by decide) (by decide)
    (by decide)

/-- C8: the P-256 private-scalar normalization produces exactly 32 bytes,
big-endian and right-aligned: inputs shorter than 32 bytes are left-padded
with zeros, and of longer inputs only the 32 trailing (least-significant)
bytes are kept — as stated by the spec-side definition
`specNormalize32`. -/
theorem C8_p256_scalar_normalization (sec_bytes : List Nat) :
    normalize32 sec_bytes = specNormalize32 sec_bytes := by
  unfold normalize32 specNormalize32
  rw [writeRev_eq sec_bytes.reverse 0 (List.replicate 32 0) (by omega) (by simp)]
  simp only [Nat.sub_zero, List.length_reverse]
  have hmid : (sec_bytes.reverse.take 32).reverse
      = sec_bytes.drop (sec_bytes.length - 32) :=
    (List.rtake_eq_reverse_take_reverse sec_bytes 32).symm
  rw [hmid]
  rw [take_replicate_nat]
  have e1 : min (32 - min 32 sec_bytes.length) 32 = 32 - sec_bytes.length := by omega
  rw [e1]
  have e2 : (List.replicate 32 (0 : Nat)).drop 32 = [] := rfl
  rw [e2, List.append_nil]

/-- C9: when kdfname is "none" and no password is supplied, the ciphername
bytes are irrelevant: `decrypt_secret_key` gives identical outcomes for any
two ciphernames (recognized or not), and so does `decode_openssh` on two
containers differing only in the ciphername field. -/
theorem C9_ciphername_irrelevant_kdf_none :
    (∀ (crypto : Crypto) (c1 c2 opts data : List Nat),
      decrypt_secret_key crypto c1 bNone opts none data
        = decrypt_secret_key crypto c2 bNone opts none data)
  ∧ (∀ (cfg : Config) (crypto : Crypto) (c1 c2 opts : List Nat)
      (pubkeys : List (List Nat)) (priv : List Nat),
      c1.length < 2 ^ 32 → c2.length < 2 ^ 32 → opts.length < 2 ^ 32 →
      (∀ s ∈ pubkeys, s.length < 2 ^ 32) → pubkeys.length < 2 ^ 32 →
      priv.length < 2 ^ 32 →
      decode_openssh cfg crypto (mkContainer c1 bNone opts pubkeys priv) none
        = decode_openssh cfg crypto (mkContainer c2 bNone opts pubkeys priv) none) := by
  constructor
  · intro crypto c1 c2 opts data
    rfl
  · intro cfg crypto c1 c2 opts pubkeys priv h1 h2 h3 h4 h5 h6
    rw [decode_mkContainer_none cfg crypto c1 opts pubkeys priv h1 h3 h4 h5 h6,
      decode_mkContainer_none cfg crypto c2 opts pubkeys priv h2 h3 h4 h5 h6]

theorem C9_ciphername_irrelevant_kdf_none_witness :
    decode_openssh cfgAll cryptoOk (mkContainer bAes128Ctr bNone [] [[]] badCheckPriv)
        none
      = decode_openssh cfgAll cryptoOk (mkContainer bNone bNone [] [[]] badCheckPriv)
        none :=
  C9_ciphername_irrelevant_kdf_none.2 cfgAll cryptoOk bAes128Ctr bNone [] [[]]
    badCheckPriv (by decide) (by decide) (by decide) (by decide) (by decide) (by decide)

/-- C10: with no password and a kdfname that is neither "none" nor
"bcrypt" (the only recognized KDF), `decrypt_secret_key` fails with the
password-required error, not an unsupported-KDF error: password presence is
tested before the KDF or cipher name is validated. -/
theorem C10_password_presence_checked_first (crypto : Crypto)
    (cn kdf opts data : List Nat) (h1 : kdf ≠ bNone) (_h2 : kdf ≠ bBcrypt) :
    decrypt_secret_key crypto cn kdf opts none data = .err .keyIsEncrypted := by
  unfold decrypt_secret_key
  rw [if_neg h1]

theorem C10_password_presence_checked_first_witness :
    ([97, 114, 103, 111, 110] : List Nat) ≠ bNone
  ∧ ([97, 114, 103, 111, 110] : List Nat) ≠ bBcrypt
  ∧ decrypt_secret_key cryptoOk bAes256Ctr [97, 114, 103, 111, 110] [] none [1, 2]
      = .err .keyIsEncrypted :=
  ⟨by decide, by decide,
    C10_password_presence_checked_first cryptoOk bAes256Ctr [97, 114, 103, 111, 110]
      [] [1, 2] (by decide) (by decide)⟩
